import Mathlib

/-!
Verification development for the prismarine-physics player simulator
(`src/index.js`).  JavaScript IEEE-754 binary64 numbers are modelled as
exact rationals (`ℚ`); the two constants that the source explicitly
round-trips through binary32 (`Math.fround(1 - 0.02)` and
`Math.fround(0.42)`) are written as the exact rational values of those
binary32 floats.  The transcendental library functions (`Math.sin`,
`Math.cos`, `Math.sqrt`, `Math.PI`) are carried as abstract parameters of
the physics context, since their exact values never decide the properties
proved here.  `world.getBlock` may return `null`; a `null` dereference
(a thrown `TypeError`) is modelled by `Option`:`none` propagating out of
the tick.
-/

namespace Prismarine

/-- 3-vector of rationals, the model of the external `vec3` value type. -/
structure Vec3 where
  x : ℚ
  y : ℚ
  z : ℚ
deriving DecidableEq, Repr

/-- `vec3` `offset(dx, dy, dz)`: componentwise translation. -/
def Vec3.offset (v : Vec3) (dx dy dz : ℚ) : Vec3 :=
  ⟨v.x + dx, v.y + dy, v.z + dz⟩

/-- `vec3` `floored()`: componentwise floor. -/
def Vec3.floored (v : Vec3) : Vec3 :=
  ⟨(⌊v.x⌋ : ℚ), (⌊v.y⌋ : ℚ), (⌊v.z⌋ : ℚ)⟩

/-- `vec3` `add(other)`: componentwise sum. -/
def Vec3.add (v w : Vec3) : Vec3 :=
  ⟨v.x + w.x, v.y + w.y, v.z + w.z⟩

/-- Axis-aligned bounding box, the model of the repository's `lib/aabb`
value type (six binary64 bounds). -/
structure AABB where
  minX : ℚ
  minY : ℚ
  minZ : ℚ
  maxX : ℚ
  maxY : ℚ
  maxZ : ℚ
deriving DecidableEq, Repr

/-- Modelled from the spec: `lib/aabb` is not under `src/`; `offset`
translates the box in place. -/
def AABB.offset (bb : AABB) (dx dy dz : ℚ) : AABB :=
  ⟨bb.minX + dx, bb.minY + dy, bb.minZ + dz,
   bb.maxX + dx, bb.maxY + dy, bb.maxZ + dz⟩

/-- Modelled from the spec: `lib/aabb` `extend(dx,dy,dz)` grows the box
toward the signed direction, never shrinking. -/
def AABB.extend (bb : AABB) (dx dy dz : ℚ) : AABB :=
  { minX := if dx < 0 then bb.minX + dx else bb.minX
    minY := if dy < 0 then bb.minY + dy else bb.minY
    minZ := if dz < 0 then bb.minZ + dz else bb.minZ
    maxX := if dx > 0 then bb.maxX + dx else bb.maxX
    maxY := if dy > 0 then bb.maxY + dy else bb.maxY
    maxZ := if dz > 0 then bb.maxZ + dz else bb.maxZ }

/-- Modelled from the spec: `lib/aabb` `contract(ax,ay,az)` shrinks the box
symmetrically. -/
def AABB.contract (bb : AABB) (ax ay az : ℚ) : AABB :=
  ⟨bb.minX + ax, bb.minY + ay, bb.minZ + az,
   bb.maxX - ax, bb.maxY - ay, bb.maxZ - az⟩

/-- Modelled from the spec: `lib/aabb` `intersects(other)` is the strict
open-interval overlap test on all three axes. -/
def AABB.intersects (bb other : AABB) : Bool :=
  decide (bb.minX < other.maxX) && decide (bb.maxX > other.minX) &&
  decide (bb.minY < other.maxY) && decide (bb.maxY > other.minY) &&
  decide (bb.minZ < other.maxZ) && decide (bb.maxZ > other.minZ)

/-- Modelled from the spec: `lib/aabb` `computeOffsetX(other, offsetX)`
returns the largest magnitude of `offsetX` (same sign) that does not cause
`other` swept along X to intersect `self`; if no collision, `offsetX` is
returned unchanged. -/
def AABB.computeOffsetX (self other : AABB) (offsetX : ℚ) : ℚ :=
  if other.maxY > self.minY ∧ other.minY < self.maxY ∧
     other.maxZ > self.minZ ∧ other.minZ < self.maxZ then
    if offsetX > 0 ∧ other.maxX ≤ self.minX then
      min (self.minX - other.maxX) offsetX
    else if offsetX < 0 ∧ other.minX ≥ self.maxX then
      max (self.maxX - other.minX) offsetX
    else offsetX
  else offsetX

/-- Modelled from the spec: `lib/aabb` `computeOffsetY(other, offsetY)`,
the Y-axis sweep helper. -/
def AABB.computeOffsetY (self other : AABB) (offsetY : ℚ) : ℚ :=
  if other.maxX > self.minX ∧ other.minX < self.maxX ∧
     other.maxZ > self.minZ ∧ other.minZ < self.maxZ then
    if offsetY > 0 ∧ other.maxY ≤ self.minY then
      min (self.minY - other.maxY) offsetY
    else if offsetY < 0 ∧ other.minY ≥ self.maxY then
      max (self.maxY - other.minY) offsetY
    else offsetY
  else offsetY

/-- Modelled from the spec: `lib/aabb` `computeOffsetZ(other, offsetZ)`,
the Z-axis sweep helper. -/
def AABB.computeOffsetZ (self other : AABB) (offsetZ : ℚ) : ℚ :=
  if other.maxX > self.minX ∧ other.minX < self.maxX ∧
     other.maxY > self.minY ∧ other.minY < self.maxY then
    if offsetZ > 0 ∧ other.maxZ ≤ self.minZ then
      min (self.minZ - other.maxZ) offsetZ
    else if offsetZ < 0 ∧ other.minZ ≥ self.maxZ then
      max (self.maxZ - other.minZ) offsetZ
    else offsetZ
  else offsetZ

/-- A collision shape tuple `(x0, y0, z0, x1, y1, z1)` from `block.shapes`. -/
abbrev Shape := ℚ × ℚ × ℚ × ℚ × ℚ × ℚ

/-- `new AABB(shape[0], ..., shape[5])`. -/
def shapeToAABB (s : Shape) : AABB :=
  ⟨s.1, s.2.1, s.2.2.1, s.2.2.2.1, s.2.2.2.2.1, s.2.2.2.2.2⟩

/-- Model of the external `Block` record (§6 of the spec): id, metadata,
integer position, collision shapes, the properties read through
`getProperties()` and the bounding-box kind. -/
structure Block where
  type : Int
  metadata : Int
  position : Vec3
  shapes : List Shape
  isOpen : Bool
  facing : String
  waterlogged : Bool
  boundingBox : String
deriving DecidableEq, Repr

/-- The world: a partial map from integer lattice positions to blocks
(`getBlock` may return `null`, modelled as `none`). -/
def World := Int → Int → Int → Option Block

/-- `world.getBlock(pos)` for a fractional position: the external world
floors each coordinate before the lookup. -/
def getBlock (world : World) (pos : Vec3) : Option Block :=
  world ⌊pos.x⌋ ⌊pos.y⌋ ⌊pos.z⌋

/-- Helper for `intRangeIncl`: the `k` consecutive integers starting at `c`. -/
def intRangeGo : Nat → Int → List Int
  | 0, _ => []
  | n + 1, c => c :: intRangeGo n (c + 1)

/-- The inclusive integer range `[a, b]`, the index set of a JS
`for (c = a; c <= b; c++)` loop. -/
def intRangeIncl (a b : Int) : List Int :=
  intRangeGo (b + 1 - a).toNat a

theorem mem_intRangeGo {k : Nat} {c n : Int} :
    n ∈ intRangeGo k c ↔ c ≤ n ∧ n < c + k := by
  induction k generalizing c with
  | zero => simp [intRangeGo]
  | succ m ih =>
    simp only [intRangeGo, List.mem_cons, ih]
    omega

theorem mem_intRangeIncl {a b n : Int} :
    n ∈ intRangeIncl a b ↔ a ≤ n ∧ n ≤ b := by
  simp only [intRangeIncl, mem_intRangeGo]
  omega

/-- `getSurroundingBBs(world, queryBB)` (src/index.js lines 169-188):
iterate the integer lattice with `y` from `⌊minY⌋ - 1` through `⌊maxY⌋`
and `x`, `z` from `⌊min⌋` through `⌊max⌋`; for each present block, emit
each of its shape boxes translated by the block's position. -/
def getSurroundingBBs (world : World) (queryBB : AABB) : List AABB :=
  (intRangeIncl (⌊queryBB.minY⌋ - 1) ⌊queryBB.maxY⌋).flatMap fun y =>
    (intRangeIncl ⌊queryBB.minZ⌋ ⌊queryBB.maxZ⌋).flatMap fun z =>
      (intRangeIncl ⌊queryBB.minX⌋ ⌊queryBB.maxX⌋).flatMap fun x =>
        match world x y z with
        | none => []
        | some block =>
          block.shapes.map fun shape =>
            (shapeToAABB shape).offset block.position.x block.position.y
              block.position.z

/-! ## Physics constants (the `physics` object, src/index.js lines 106-146) -/

def gravity : ℚ := 0.08
/-- `Math.fround(1 - 0.02)`: the exact rational value of the binary32
float nearest to 0.98, namely `16441672 / 2^24`. -/
def airdrag : ℚ := 16441672 / 16777216
def playerSpeed : ℚ := 0.1
def sprintSpeed : ℚ := 0.3
def sneakSpeed : ℚ := 0.3
def stepHeight : ℚ := 0.6
def negligeableVelocity : ℚ := 0.003
def soulsandSpeed : ℚ := 0.4
def honeyblockSpeed : ℚ := 0.4
def honeyblockJumpSpeed : ℚ := 0.4
def ladderMaxSpeed : ℚ := 0.15
def ladderClimbSpeed : ℚ := 0.2
def playerHalfWidth : ℚ := 0.3
def playerHeight : ℚ := 1.8
def waterInertia : ℚ := 0.8
def lavaInertia : ℚ := 0.5
def liquidAcceleration : ℚ := 0.02
def airborneInertia : ℚ := 0.91
def airborneAcceleration : ℚ := 0.02
def defaultSlipperiness : ℚ := 0.6
def outOfLiquidImpulse : ℚ := 0.3
def autojumpCooldown : Int := 10
def slowFallingConst : ℚ := 0.125
def sprintingUUID : String := "662a6b8d-da3e-4c1c-8813-96ea6097278d"
/-- `Math.fround(0.42)`: the exact rational value of the binary32 float
nearest to 0.42, namely `14092861 / 2^25`. -/
def jumpVelocityBase : ℚ := 14092861 / 33554432

/-- One of the two bubble-column drag parameter sets. -/
structure BubbleDrag where
  down : ℚ
  maxDown : ℚ
  up : ℚ
  maxUp : ℚ

def bubbleColumnSurfaceDrag : BubbleDrag := ⟨0.03, -0.9, 0.1, 1.8⟩
def bubbleColumnDrag : BubbleDrag := ⟨0.03, -0.3, 0.06, 0.7⟩

/-! ## Attribute helper (`lib/attribute`, an external pure helper per §6) -/

/-- An attribute modifier `{uuid, amount, operation}`. -/
structure Modifier where
  uuid : String
  amount : ℚ
  operation : Int
deriving DecidableEq, Repr

/-- An attribute value: a base value plus a modifier stack. -/
structure AttributeValue where
  value : ℚ
  modifiers : List Modifier
deriving DecidableEq, Repr

/-- Modelled from the spec: `lib/attribute` is not under `src/`;
`createAttributeValue(base)` makes an attribute with no modifiers. -/
def createAttributeValue (base : ℚ) : AttributeValue :=
  ⟨base, []⟩

/-- Modelled from the spec: `addAttributeModifier(V, m)` pushes a
modifier. -/
def addAttributeModifier (attr : AttributeValue) (m : Modifier) :
    AttributeValue :=
  { attr with modifiers := attr.modifiers ++ [m] }

/-- Modelled from the spec: `deleteAttributeModifier(V, uuid)` removes the
modifiers with that uuid. -/
def deleteAttributeModifier (attr : AttributeValue) (uuid : String) :
    AttributeValue :=
  { attr with modifiers := attr.modifiers.filter (fun m => m.uuid ≠ uuid) }

/-- Modelled from the spec: `checkAttributeModifier(V, uuid)` tests
whether a modifier with that uuid is present. -/
def checkAttributeModifier (attr : AttributeValue) (uuid : String) : Bool :=
  attr.modifiers.any (fun m => m.uuid == uuid)

/-- Modelled from the spec: `getAttributeValue(V)` evaluates the modifier
stack — operation 0 = add, 1 = multiplyBase, 2 = multiplyTotal. -/
def getAttributeValue (attr : AttributeValue) : ℚ :=
  let base := (attr.modifiers.filter (fun m => m.operation = 0)).foldl
    (fun acc m => acc + m.amount) attr.value
  let withBase := (attr.modifiers.filter (fun m => m.operation = 1)).foldl
    (fun acc m => acc + base * m.amount) base
  (attr.modifiers.filter (fun m => m.operation = 2)).foldl
    (fun acc m => acc + acc * m.amount) withBase

/-- Modelled from the spec: `lib/math` `clamp(min, x, max)`. -/
def clamp (lo x hi : ℚ) : ℚ := max lo (min x hi)

/-! ## Entity state -/

/-- The per-tick control record; the fields are JS booleans that the
source also uses as 0/1 numbers. -/
structure Control where
  forward : Bool
  back : Bool
  left : Bool
  right : Bool
  jump : Bool
  sprint : Bool
  sneak : Bool
deriving DecidableEq, Repr

/-- JS boolean-to-number coercion used by `(right - left) * 0.98`. -/
def b2q (b : Bool) : ℚ := if b then 1 else 0

/-- The mutable player state threaded through a tick (the `PlayerState`
fields that `simulatePlayer` reads and writes). -/
structure Entity where
  pos : Vec3
  vel : Vec3
  yaw : ℚ
  pitch : ℚ
  onGround : Bool
  isInWater : Bool
  isInLava : Bool
  isInWeb : Bool
  isCollidedHorizontally : Bool
  isCollidedVertically : Bool
  elytraFlying : Bool
  elytraEquipped : Bool
  jumpTicks : Int
  jumpQueued : Bool
  fireworkRocketDuration : Int
  jumpBoost : ℚ
  dolphinsGrace : ℚ
  slowFalling : ℚ
  levitation : ℚ
  depthStrider : ℚ
  attributes : String → Option AttributeValue
  control : Control

/-- The per-version context closed over by `Physics(mcData, world)`:
block-id tables, the feature set, the feature-gated liquid gravities, and
the external transcendental `Math` functions (abstract: their values never
decide the claims proved here). -/
structure Ctx where
  slimeBlockId : Int
  soulsandId : Int
  honeyblockId : Int
  webId : Int
  ladderId : Int
  vineId : Int
  bubblecolumnId : Int
  waterIds : List Int
  lavaIds : List Int
  trapdoorIds : List Int
  waterLike : List Int
  blockSlipperiness : Int → Option ℚ
  supportFeature : String → Bool
  waterGravity : ℚ
  lavaGravity : ℚ
  movementSpeedAttribute : String
  sin : ℚ → ℚ
  cos : ℚ → ℚ
  sqrt : ℚ → ℚ
  pi : ℚ

/-- `getPlayerBB(pos)` (lines 158-161). -/
def getPlayerBB (pos : Vec3) : AABB :=
  (AABB.mk (-playerHalfWidth) 0 (-playerHalfWidth)
    playerHalfWidth playerHeight playerHalfWidth).offset pos.x pos.y pos.z

/-- `setPositionToBB(bb, pos)` (lines 163-167), as the position it writes. -/
def setPositionToBB (bb : AABB) : Vec3 :=
  ⟨bb.minX + playerHalfWidth, bb.minY, bb.minZ + playerHalfWidth⟩

/-- The lattice positions of a box iterated `y`-major, then `z`, then `x`
(the cursor sweep pattern of lines 363-365, 653-655, 715-717). -/
def latticePositions (bb : AABB) : List (Int × Int × Int) :=
  (intRangeIncl ⌊bb.minY⌋ ⌊bb.maxY⌋).flatMap fun y =>
    (intRangeIncl ⌊bb.minZ⌋ ⌊bb.maxZ⌋).flatMap fun z =>
      (intRangeIncl ⌊bb.minX⌋ ⌊bb.maxX⌋).map fun x => (x, y, z)

/-! ## Collision engine: `moveEntity` (src/index.js lines 202-405) -/

/-- One shrink of a sneak-guard delta toward zero by `step = 0.05`
(the loop bodies of lines 224-247). -/
def shrinkStep (d : ℚ) : ℚ :=
  if d < 0.05 ∧ d ≥ -0.05 then 0 else if d > 0 then d - 0.05 else d + 0.05

/-- Termination measure for the sneak-guard loops: the number of `0.05`
steps left in `d`. -/
def shrinkMeasure (d : ℚ) : Nat := (⌈|d| * 20⌉).toNat

theorem shrinkMeasure_lt {d : ℚ} (h : d ≠ 0) :
    shrinkMeasure (shrinkStep d) < shrinkMeasure d := by
  have hpos : 0 < ⌈|d| * 20⌉ := by
    apply Int.ceil_pos.mpr
    have : 0 < |d| := abs_pos.mpr h
    linarith
  unfold shrinkStep shrinkMeasure
  split_ifs with h1 h2
  · simpa using hpos
  · have hd : d ≥ 0.05 := by
      rcases not_and_or.mp h1 with h' | h'
      · linarith [not_lt.mp h']
      · exfalso; exact h' (by linarith)
    have habs : |d - 0.05| = d - 0.05 := abs_of_nonneg (by linarith)
    have habs2 : |d| = d := abs_of_pos (by linarith)
    rw [habs, habs2]
    have heq : (d - 0.05) * 20 = d * 20 - 1 := by ring
    rw [heq]
    have hc : ⌈d * 20 - (1 : ℚ)⌉ = ⌈d * 20⌉ - 1 := by
      exact_mod_cast Int.ceil_sub_int (d * 20) 1
    rw [hc]
    have h1le : (1 : ℤ) ≤ ⌈d * 20⌉ := by
      have : (1 : ℚ) ≤ d * 20 := by linarith
      calc (1 : ℤ) = ⌈(1 : ℚ)⌉ := by simp
        _ ≤ ⌈d * 20⌉ := Int.ceil_le_ceil this
    omega
  · have hd : d ≤ -0.05 := by
      rcases not_and_or.mp h1 with h' | h'
      · exfalso; exact h2 (lt_of_lt_of_le (by norm_num) (not_lt.mp h'))
      · linarith [not_le.mp h']
    have habs : |d + 0.05| = -(d + 0.05) := abs_of_nonpos (by linarith)
    have habs2 : |d| = -d := abs_of_neg (by linarith)
    rw [habs, habs2]
    have heq : -(d + 0.05) * 20 = -d * 20 - 1 := by ring
    rw [heq]
    have hc : ⌈-d * 20 - (1 : ℚ)⌉ = ⌈-d * 20⌉ - 1 := by
      exact_mod_cast Int.ceil_sub_int (-d * 20) 1
    rw [hc]
    have h1le : (1 : ℤ) ≤ ⌈-d * 20⌉ := by
      have : (1 : ℚ) ≤ -d * 20 := by linarith
      calc (1 : ℤ) = ⌈(1 : ℚ)⌉ := by simp
        _ ≤ ⌈-d * 20⌉ := Int.ceil_le_ceil this
    omega

/-- The single-axis sneak-guard loop (lines 224-228 / 230-234):
`for (; d !== 0 && cond(d); oldV = d) { shrink d }`; returns the final
delta and the final `oldVel`. -/
def shrinkAxis (cond : ℚ → Bool) (d oldV : ℚ) : ℚ × ℚ :=
  if h : d ≠ 0 ∧ cond d then
    let d2 := shrinkStep d
    shrinkAxis cond d2 d2
  else (d, oldV)
termination_by shrinkMeasure d
decreasing_by exact shrinkMeasure_lt h.1

/-- The joint sneak-guard loop (lines 236-247); returns
`(dx, dz, oldVelX, oldVelZ)`. -/
def shrinkBoth (cond : ℚ → ℚ → Bool) (dx dz ox oz : ℚ) : ℚ × ℚ × ℚ × ℚ :=
  if h : dx ≠ 0 ∧ dz ≠ 0 ∧ cond dx dz then
    let dx2 := shrinkStep dx
    let dz2 := shrinkStep dz
    shrinkBoth cond dx2 dz2 dx2 dz2
  else (dx, dz, ox, oz)
termination_by shrinkMeasure dx + shrinkMeasure dz
decreasing_by exact Nat.add_lt_add (shrinkMeasure_lt h.1) (shrinkMeasure_lt h.2.1)

/-- The outcome of `moveEntity`'s translation resolution: the final
per-axis deltas, the pre-resolution deltas they are compared against for
the collision flags, and the final player box. -/
structure CollisionResult where
  dx : ℚ
  dy : ℚ
  dz : ℚ
  oldVelX : ℚ
  oldVelY : ℚ
  oldVelZ : ℚ
  playerBB : AABB
deriving DecidableEq, Repr

/-- Lines 216-340 of `moveEntity`: sneak edge-guard, per-axis sweep
resolution in order Y, X, Z, and the step-up search. -/
def resolveCollisions (world : World) (entity : Entity)
    (dxIn dyIn dzIn : ℚ) : CollisionResult :=
  let pos := entity.pos
  let sn :=
    if entity.control.sneak && entity.onGround then
      let condX := fun d =>
        (getSurroundingBBs world ((getPlayerBB pos).offset d 0 0)).isEmpty
      let condZ := fun d =>
        (getSurroundingBBs world ((getPlayerBB pos).offset 0 0 d)).isEmpty
      let condXZ := fun dx dz =>
        (getSurroundingBBs world ((getPlayerBB pos).offset dx 0 dz)).isEmpty
      let px := shrinkAxis condX dxIn dxIn
      let pz := shrinkAxis condZ dzIn dzIn
      shrinkBoth condXZ px.1 pz.1 px.2 pz.2
    else (dxIn, dzIn, dxIn, dzIn)
  let dx := sn.1
  let dz := sn.2.1
  let oldVelX := sn.2.2.1
  let oldVelZ := sn.2.2.2
  let oldVelY := dyIn
  let playerBB := getPlayerBB pos
  let queryBB := playerBB.extend dx dyIn dz
  let surroundingBBs := getSurroundingBBs world queryBB
  let oldBB := playerBB
  let dy := surroundingBBs.foldl (fun d bb => bb.computeOffsetY playerBB d) dyIn
  let playerBB := playerBB.offset 0 dy 0
  let dx := surroundingBBs.foldl (fun d bb => bb.computeOffsetX playerBB d) dx
  let playerBB := playerBB.offset dx 0 0
  let dz := surroundingBBs.foldl (fun d bb => bb.computeOffsetZ playerBB d) dz
  let playerBB := playerBB.offset 0 0 dz
  let stepped :=
    if stepHeight > 0 ∧ (entity.onGround ∨ (dy ≠ oldVelY ∧ oldVelY < 0)) ∧
        (dx ≠ oldVelX ∨ dz ≠ oldVelZ) then
      let oldVelXCol := dx
      let oldVelYCol := dy
      let oldVelZCol := dz
      let oldBBCol := playerBB
      let dy := stepHeight
      let queryBB2 := oldBB.extend oldVelX dy oldVelZ
      let surroundingBBs := getSurroundingBBs world queryBB2
      let BB1 := oldBB
      let BB2 := oldBB
      let BB_XZ := BB1.extend dx 0 dz
      let dy1 := surroundingBBs.foldl (fun d bb => bb.computeOffsetY BB_XZ d) dy
      let dy2 := surroundingBBs.foldl (fun d bb => bb.computeOffsetY BB2 d) dy
      let BB1 := BB1.offset 0 dy1 0
      let BB2 := BB2.offset 0 dy2 0
      let dx1 := surroundingBBs.foldl (fun d bb => bb.computeOffsetX BB1 d) oldVelX
      let dx2 := surroundingBBs.foldl (fun d bb => bb.computeOffsetX BB2 d) oldVelX
      let BB1 := BB1.offset dx1 0 0
      let BB2 := BB2.offset dx2 0 0
      let dz1 := surroundingBBs.foldl (fun d bb => bb.computeOffsetZ BB1 d) oldVelZ
      let dz2 := surroundingBBs.foldl (fun d bb => bb.computeOffsetZ BB2 d) oldVelZ
      let BB1 := BB1.offset 0 0 dz1
      let BB2 := BB2.offset 0 0 dz2
      let norm1 := dx1 * dx1 + dz1 * dz1
      let norm2 := dx2 * dx2 + dz2 * dz2
      let cand :=
        if norm1 > norm2 then (dx1, -dy1, dz1, BB1) else (dx2, -dy2, dz2, BB2)
      let dx := cand.1
      let dy := cand.2.1
      let dz := cand.2.2.1
      let playerBB := cand.2.2.2
      let dy := surroundingBBs.foldl (fun d bb => bb.computeOffsetY playerBB d) dy
      let playerBB := playerBB.offset 0 dy 0
      if oldVelXCol * oldVelXCol + oldVelZCol * oldVelZCol ≥ dx * dx + dz * dz then
        (oldVelXCol, oldVelYCol, oldVelZCol, oldBBCol)
      else (dx, dy, dz, playerBB)
    else (dx, dy, dz, playerBB)
  { dx := stepped.1, dy := stepped.2.1, dz := stepped.2.2.1,
    oldVelX := oldVelX, oldVelY := oldVelY, oldVelZ := oldVelZ,
    playerBB := stepped.2.2.2 }

/-- Lines 206-214 of `moveEntity`: the cobweb entry check that scales the
deltas by `(0.25, 0.05, 0.25)`, zeroes the velocity and clears the flag. -/
def moveEntityWebbed (entity : Entity) (dx dy dz : ℚ) :
    Entity × ℚ × ℚ × ℚ :=
  if entity.isInWeb then
    ({ entity with vel := ⟨0, 0, 0⟩, isInWeb := false },
      dx * 0.25, dy * 0.05, dz * 0.25)
  else (entity, dx, dy, dz)

/-- Lines 350-358 of `moveEntity`: zero the clamped horizontal velocity
components; on a Y clamp, reflect off slime (unless sneaking) or zero. -/
def velAfterClamp (ctx : Ctx) (sneak : Bool) (vel : Vec3)
    (r : CollisionResult) (blockAtFeet : Option Block) : Vec3 :=
  let vel := if r.dx ≠ r.oldVelX then { vel with x := 0 } else vel
  let vel := if r.dz ≠ r.oldVelZ then { vel with z := 0 } else vel
  if r.dy ≠ r.oldVelY then
    match blockAtFeet with
    | some b =>
      if b.type = ctx.slimeBlockId ∧ ¬sneak then { vel with y := -vel.y }
      else { vel with y := 0 }
    | none => { vel with y := 0 }
  else vel

/-- The soulsand/honey horizontal velocity scaling shared by the collision
sweep (lines 369-375) and the `velocityBlocksOnTop` path (lines 396-402). -/
def soulsandHoneyScale (ctx : Ctx) (btype : Int) (vel : Vec3) : Vec3 :=
  if btype = ctx.soulsandId then
    { vel with x := vel.x * soulsandSpeed, z := vel.z * soulsandSpeed }
  else if btype = ctx.honeyblockId then
    { vel with x := vel.x * honeyblockSpeed, z := vel.z * honeyblockSpeed }
  else vel

/-- One lattice cell of the post-move block-effects sweep (lines 366-389):
soulsand/honey velocity scaling, cobweb flag, bubble-column drag. -/
def blockEffectsStep (ctx : Ctx) (world : World) (st : Vec3 × Bool)
    (p : Int × Int × Int) : Vec3 × Bool :=
  match world p.1 p.2.1 p.2.2 with
  | none => st
  | some block =>
    let vel := st.1
    let web := st.2
    let vel :=
      if ctx.supportFeature "velocityBlocksOnCollision" then
        soulsandHoneyScale ctx block.type vel
      else vel
    if block.type = ctx.webId then (vel, true)
    else if block.type = ctx.bubblecolumnId then
      let down := block.metadata = 0
      let aboveBlock := world p.1 (p.2.1 + 1) p.2.2
      let bubbleDrag :=
        match aboveBlock with
        | some ab =>
          if ab.type = 0 then bubbleColumnSurfaceDrag else bubbleColumnDrag
        | none => bubbleColumnDrag
      if down then
        ({ vel with y := max bubbleDrag.maxDown (vel.y - bubbleDrag.down) }, web)
      else
        ({ vel with y := min bubbleDrag.maxUp (vel.y + bubbleDrag.up) }, web)
    else (vel, web)

/-- Lines 393-404: the `velocityBlocksOnTop` legacy soulsand/honey
scaling from the block half a cube below the floored position. -/
def velocityBlocksOnTopAdjust (ctx : Ctx) (world : World) (pos : Vec3)
    (vel : Vec3) : Vec3 :=
  if ctx.supportFeature "velocityBlocksOnTop" then
    match getBlock world ((pos.floored).offset 0 (-0.5) 0) with
    | some b => soulsandHoneyScale ctx b.type vel
    | none => vel
  else vel

/-- Lines 342-404 of `moveEntity`: flag updates, velocity zeroing and the
post-move block effects, applied to a collision-resolution outcome. -/
def moveEntityPost (ctx : Ctx) (world : World) (entity : Entity)
    (r : CollisionResult) : Entity :=
  let pos := setPositionToBB r.playerBB
  let isCollidedHorizontally : Bool :=
    decide (r.dx ≠ r.oldVelX) || decide (r.dz ≠ r.oldVelZ)
  let isCollidedVertically : Bool := decide (r.dy ≠ r.oldVelY)
  let onGround : Bool := isCollidedVertically && decide (r.oldVelY < 0)
  let blockAtFeet := getBlock world (pos.offset 0 (-0.2) 0)
  let vel := velAfterClamp ctx entity.control.sneak entity.vel r blockAtFeet
  let bb := r.playerBB.contract 0.001 0.001 0.001
  let st := (latticePositions bb).foldl (blockEffectsStep ctx world)
    (vel, entity.isInWeb)
  let vel := velocityBlocksOnTopAdjust ctx world pos st.1
  { entity with
    pos := pos, vel := vel, isInWeb := st.2,
    isCollidedHorizontally := isCollidedHorizontally,
    isCollidedVertically := isCollidedVertically,
    onGround := onGround }

/-- The web-adjusted collision resolution a `moveEntity` call performs
(exposed so theorems can speak about the clamped deltas). -/
def moveEntityResolution (world : World) (entity : Entity)
    (dx dy dz : ℚ) : CollisionResult :=
  let w := moveEntityWebbed entity dx dy dz
  resolveCollisions world w.1 w.2.1 w.2.2.1 w.2.2.2

/-- `moveEntity(entity, world, dx, dy, dz)` (lines 202-405). -/
def moveEntity (ctx : Ctx) (world : World) (entity : Entity)
    (dx dy dz : ℚ) : Entity :=
  let w := moveEntityWebbed entity dx dy dz
  moveEntityPost ctx world w.1 (resolveCollisions world w.1 w.2.1 w.2.2.1 w.2.2.2)

/-! ## Movement engine (src/index.js lines 407-745) -/

/-- `getLookingVector(entity)` (lines 407-463). -/
structure LookVector where
  yaw : ℚ
  pitch : ℚ
  sinYaw : ℚ
  cosYaw : ℚ
  sinPitch : ℚ
  cosPitch : ℚ
  lookX : ℚ
  lookY : ℚ
  lookZ : ℚ
  lookDir : Vec3

def getLookingVector (ctx : Ctx) (entity : Entity) : LookVector :=
  let yaw := entity.yaw
  let pitch := entity.pitch
  let sinYaw := ctx.sin yaw
  let cosYaw := ctx.cos yaw
  let sinPitch := ctx.sin pitch
  let cosPitch := ctx.cos pitch
  let lookX := -sinYaw * cosPitch
  let lookY := sinPitch
  let lookZ := -cosYaw * cosPitch
  { yaw, pitch, sinYaw, cosYaw, sinPitch, cosPitch, lookX, lookY, lookZ,
    lookDir := ⟨lookX, lookY, lookZ⟩ }

/-- `applyHeading(entity, strafe, forward, multiplier)` (lines 465-481). -/
def applyHeading (ctx : Ctx) (entity : Entity)
    (strafe forward multiplier : ℚ) : Entity :=
  let speed := ctx.sqrt (strafe * strafe + forward * forward)
  if speed < 0.01 then entity
  else
    let speed := multiplier / max speed 1
    let strafe := strafe * speed
    let forward := forward * speed
    let yaw := ctx.pi - entity.yaw
    let s := ctx.sin yaw
    let c := ctx.cos yaw
    { entity with vel :=
      { entity.vel with
        x := entity.vel.x - (strafe * c + forward * s),
        z := entity.vel.z + (forward * c - strafe * s) } }

/-- `isOnLadder(world, pos)` (lines 483-501).  The climbable-trapdoor
branch reads `blockBelow.type` without a null guard; a `null` below — a
thrown `TypeError` in the source — is modelled as `none`. -/
def isOnLadder (ctx : Ctx) (world : World) (pos : Vec3) : Option Bool :=
  match getBlock world pos with
  | none => some false
  | some block =>
    if block.type = ctx.ladderId ∨ block.type = ctx.vineId then some true
    else if ctx.supportFeature "climableTrapdoor" &&
        ctx.trapdoorIds.contains block.type then
      match getBlock world (pos.offset 0 (-1) 0) with
      | none => none
      | some blockBelow =>
        if blockBelow.type ≠ ctx.ladderId then some false
        else if ¬block.isOpen then some false
        else if block.facing ≠ blockBelow.facing then some false
        else some true
    else some false

/-! ## Liquid engine (lines 651-745) -/

/-- `getRenderedDepth(block)` (lines 668-675). -/
def getRenderedDepth (ctx : Ctx) (block : Option Block) : Int :=
  match block with
  | none => -1
  | some b =>
    if ctx.waterLike.contains b.type then 0
    else if b.waterlogged then 0
    else if ¬ctx.waterIds.contains b.type then -1
    else if b.metadata ≥ 8 then 0 else b.metadata

/-- `getLiquidHeightPcent(block)` (lines 664-666). -/
def getLiquidHeightPcent (ctx : Ctx) (block : Option Block) : ℚ :=
  ((getRenderedDepth ctx block : ℚ) + 1) / 9

/-- `vec3` `norm()` through the abstract square root. -/
def vecNorm (ctx : Ctx) (v : Vec3) : ℚ :=
  ctx.sqrt (v.x * v.x + v.y * v.y + v.z * v.z)

/-- `vec3` `normalize()`: the zero vector when the norm is zero. -/
def vecNormalize (ctx : Ctx) (v : Vec3) : Vec3 :=
  let n := vecNorm ctx v
  if n = 0 then ⟨0, 0, 0⟩ else ⟨v.x / n, v.y / n, v.z / n⟩

/-- `getFlow(world, block)` (lines 677-710).  The falling-source loop
(lines 699-707) computes `flow.normalize().translate(0, -6, 0)` and
discards the result — `normalize` returns a fresh vector — so it leaves
`flow` unchanged and is omitted here. -/
def getFlow (ctx : Ctx) (world : World) (block : Block) : Vec3 :=
  let curlevel := getRenderedDepth ctx (some block)
  let flow := ([( (0 : Int), (1 : Int)), (-1, 0), (0, -1), (1, 0)]).foldl
    (fun (flow : Vec3) (d : Int × Int) =>
      let adjBlock := getBlock world (block.position.offset d.1 0 d.2)
      let adjLevel := getRenderedDepth ctx adjBlock
      if adjLevel < 0 then
        match adjBlock with
        | some ab =>
          if ab.boundingBox ≠ "empty" then
            let adjLevel2 := getRenderedDepth ctx
              (getBlock world (block.position.offset d.1 (-1) d.2))
            if adjLevel2 ≥ 0 then
              let f := ((adjLevel2 - (curlevel - 8)) : ℚ)
              ⟨flow.x + d.1 * f, flow.y, flow.z + d.2 * f⟩
            else flow
          else flow
        | none => flow
      else
        let f := ((adjLevel - curlevel) : ℚ)
        ⟨flow.x + d.1 * f, flow.y, flow.z + d.2 * f⟩)
    ⟨0, 0, 0⟩
  vecNormalize ctx flow

/-- `getWaterInBB(world, bb)` (lines 712-727). -/
def getWaterInBB (ctx : Ctx) (world : World) (bb : AABB) : List Block :=
  (latticePositions bb).filterMap fun p =>
    match world p.1 p.2.1 p.2.2 with
    | none => none
    | some block =>
      if ctx.waterIds.contains block.type ∨ ctx.waterLike.contains block.type ∨
          block.waterlogged then
        let waterLevel := (p.2.1 : ℚ) + 1 - getLiquidHeightPcent ctx (some block)
        if (⌈bb.maxY⌉ : ℚ) ≥ waterLevel then some block else none
      else none

/-- `isInWaterApplyCurrent(world, bb, vel)` (lines 729-745): returns the
`isInWater` flag and the current-adjusted velocity. -/
def isInWaterApplyCurrent (ctx : Ctx) (world : World) (bb : AABB)
    (vel : Vec3) : Bool × Vec3 :=
  let waterBlocks := getWaterInBB ctx world bb
  let isInWater := !waterBlocks.isEmpty
  let acceleration := waterBlocks.foldl
    (fun (acc : Vec3) b => acc.add (getFlow ctx world b)) ⟨0, 0, 0⟩
  let len := vecNorm ctx acceleration
  if len > 0 then
    (isInWater,
      ⟨vel.x + acceleration.x / len * 0.014,
       vel.y + acceleration.y / len * 0.014,
       vel.z + acceleration.z / len * 0.014⟩)
  else (isInWater, vel)

/-- `isMaterialInBB(world, queryBB, types)` (lines 651-662). -/
def isMaterialInBB (world : World) (queryBB : AABB) (types : List Int) :
    Bool :=
  (latticePositions queryBB).any fun p =>
    match world p.1 p.2.1 p.2.2 with
    | some b => types.contains b.type
    | none => false

/-- `doesNotCollide(world, pos)` (lines 503-506). -/
def doesNotCollide (ctx : Ctx) (world : World) (pos : Vec3) : Bool :=
  let pBB := getPlayerBB pos
  !((getSurroundingBBs world pBB).any fun x => pBB.intersects x) &&
    (getWaterInBB ctx world pBB).isEmpty

/-- Line 518 of the liquid branch: the vertical inertia. -/
def liquidInertia (entity : Entity) : ℚ :=
  if entity.isInWater then waterInertia else lavaInertia

/-- Lines 517-532 of the liquid branch: the
`(horizontalInertia, acceleration)` pair after the depth-strider and
dolphins-grace adjustments. -/
def liquidHA (entity : Entity) : ℚ × ℚ :=
  let acceleration := liquidAcceleration
  let horizontalInertia := liquidInertia entity
  if entity.isInWater then
    let strider := min entity.depthStrider 3
    let strider := if ¬entity.onGround then strider * 0.5 else strider
    let ha :=
      if strider > 0 then
        (horizontalInertia + (0.546 - horizontalInertia) * strider / 3,
         acceleration + (0.7 - acceleration) * strider / 3)
      else (horizontalInertia, acceleration)
    (if entity.dolphinsGrace > 0 then (0.96 : ℚ) else ha.1, ha.2)
  else (horizontalInertia, acceleration)

/-- Lines 534-535 of the liquid branch: `applyHeading` with the liquid
acceleration followed by `moveEntity` with the resulting velocity. -/
def liquidPostMove (ctx : Ctx) (world : World) (entity : Entity)
    (strafe forward : ℚ) : Entity :=
  let entity := applyHeading ctx entity strafe forward (liquidHA entity).2
  moveEntity ctx world entity entity.vel.x entity.vel.y entity.vel.z

/-- `moveEntityWithHeading(entity, world, strafe, forward)` (lines
508-649).  The normal branch calls `isOnLadder`, whose climbable-trapdoor
condition can dereference a `null` block, so the result is `Option`:
`none` models the thrown `TypeError`. -/
def moveEntityWithHeading (ctx : Ctx) (world : World) (entity : Entity)
    (strafe forward : ℚ) : Option Entity :=
  let gravityMultiplier : ℚ :=
    if entity.vel.y ≤ 0 ∧ entity.slowFalling > 0 then slowFallingConst else 1
  if entity.isInWater || entity.isInLava then
    -- Water / Lava movement (lines 514-543)
    let lastY := entity.pos.y
    let inertia := liquidInertia entity
    let ha := liquidHA entity
    let entity := liquidPostMove ctx world entity strafe forward
    let vy := entity.vel.y * inertia -
      (if entity.isInWater then ctx.waterGravity else ctx.lavaGravity) *
        gravityMultiplier
    let vx := entity.vel.x * ha.1
    let vz := entity.vel.z * ha.1
    let entity := { entity with vel := ⟨vx, vy, vz⟩ }
    let entity :=
      if entity.isCollidedHorizontally &&
          doesNotCollide ctx world
            (entity.pos.offset entity.vel.x
              (entity.vel.y + 0.6 - entity.pos.y + lastY) entity.vel.z) then
        { entity with vel := { entity.vel with y := outOfLiquidImpulse } }
      else entity
    some entity
  else if entity.elytraFlying then
    -- Elytra movement (lines 544-582)
    let lv := getLookingVector ctx entity
    let vel := entity.vel
    let horizontalSpeed := ctx.sqrt (vel.x * vel.x + vel.z * vel.z)
    let cosPitchSquared := lv.cosPitch * lv.cosPitch
    let vel := { vel with
      y := vel.y + gravity * gravityMultiplier * (-1 + cosPitchSquared * 0.75) }
    let vel :=
      if vel.y < 0 ∧ lv.cosPitch > 0 then
        let m := vel.y * (-0.1) * cosPitchSquared
        Vec3.mk (vel.x + lv.lookDir.x * m / lv.cosPitch) (vel.y + m)
          (vel.z + lv.lookDir.z * m / lv.cosPitch)
      else vel
    let vel :=
      if lv.pitch < 0 ∧ lv.cosPitch > 0 then
        let m := horizontalSpeed * (-lv.sinPitch) * 0.04
        Vec3.mk (vel.x + -lv.lookDir.x * m / lv.cosPitch) (vel.y + m * 3.2)
          (vel.z + -lv.lookDir.z * m / lv.cosPitch)
      else vel
    let vel :=
      if lv.cosPitch > 0 then
        { vel with
          x := vel.x + (lv.lookDir.x / lv.cosPitch * horizontalSpeed - vel.x) * 0.1,
          z := vel.z + (lv.lookDir.z / lv.cosPitch * horizontalSpeed - vel.z) * 0.1 }
      else vel
    let vel := Vec3.mk (vel.x * 0.99) (vel.y * 0.98) (vel.z * 0.99)
    let entity := { entity with vel := vel }
    let entity := moveEntity ctx world entity vel.x vel.y vel.z
    some (if entity.onGround then { entity with elytraFlying := false } else entity)
  else do
    -- Normal movement (lines 583-648)
    let blockUnder := getBlock world (entity.pos.offset 0 (-1) 0)
    let ai :=
      match blockUnder with
      | some bu =>
        if entity.onGround then
          let playerSpeedAttribute :=
            match entity.attributes ctx.movementSpeedAttribute with
            | some a => a
            | none => createAttributeValue playerSpeed
          let playerSpeedAttribute :=
            deleteAttributeModifier playerSpeedAttribute sprintingUUID
          let playerSpeedAttribute :=
            if entity.control.sprint then
              if ¬checkAttributeModifier playerSpeedAttribute sprintingUUID then
                addAttributeModifier playerSpeedAttribute
                  ⟨sprintingUUID, sprintSpeed, 2⟩
              else playerSpeedAttribute
            else playerSpeedAttribute
          let attributeSpeed := getAttributeValue playerSpeedAttribute
          let inertia :=
            (match ctx.blockSlipperiness bu.type with
              | some s => s
              | none => defaultSlipperiness) * 0.91
          let acceleration := attributeSpeed * (0.1627714 / (inertia * inertia * inertia))
          (if acceleration < 0 then 0 else acceleration, inertia)
        else
          (airborneAcceleration +
            (if entity.control.sprint then airborneAcceleration * 0.3 else 0),
           airborneInertia)
      | none =>
        (airborneAcceleration +
          (if entity.control.sprint then airborneAcceleration * 0.3 else 0),
         airborneInertia)
    let entity := applyHeading ctx entity strafe forward ai.1
    let onLadder1 ← isOnLadder ctx world entity.pos
    let entity :=
      if onLadder1 then
        { entity with vel := (Vec3.mk
            (clamp (-ladderMaxSpeed) entity.vel.x ladderMaxSpeed)
            (max entity.vel.y (if entity.control.sneak then 0 else -ladderMaxSpeed))
            (clamp (-ladderMaxSpeed) entity.vel.z ladderMaxSpeed)) }
      else entity
    let entity := moveEntity ctx world entity entity.vel.x entity.vel.y
      entity.vel.z
    let onLadder2 ← isOnLadder ctx world entity.pos
    let entity :=
      if onLadder2 && (entity.isCollidedHorizontally ||
          (ctx.supportFeature "climbUsingJump" && entity.control.jump)) then
        { entity with vel := { entity.vel with y := ladderClimbSpeed } }
      else entity
    let vy :=
      if entity.levitation > 0 then
        entity.vel.y + (0.05 * entity.levitation - entity.vel.y) * 0.2
      else entity.vel.y - gravity * gravityMultiplier
    let vy := vy * airdrag
    some { entity with vel := (Vec3.mk (entity.vel.x * ai.2) vy
      (entity.vel.z * ai.2)) }

/-- Lines 751-760 of `simulatePlayer`: the liquid flags, the water
current, and the negligible-velocity dead-zone. -/
def simFlagsAndDeadZone (ctx : Ctx) (world : World) (entity : Entity) :
    Entity :=
  let pos := entity.pos
  let waterBB := (getPlayerBB pos).contract 0.001 0.401 0.001
  let lavaBB := (getPlayerBB pos).contract 0.1 0.4 0.1
  let wc := isInWaterApplyCurrent ctx world waterBB entity.vel
  let vel := wc.2
  let vel := { vel with x := if |vel.x| < negligeableVelocity then 0 else vel.x }
  let vel := { vel with y := if |vel.y| < negligeableVelocity then 0 else vel.y }
  let vel := { vel with z := if |vel.z| < negligeableVelocity then 0 else vel.z }
  { entity with
    isInWater := wc.1, vel := vel,
    isInLava := isMaterialInBB world lavaBB ctx.lavaIds }

/-- Lines 763-783 of `simulatePlayer`: jump-input handling and the
`jumpTicks` bookkeeping, followed by clearing `jumpQueued`. -/
def simJump (ctx : Ctx) (world : World) (entity : Entity) : Entity :=
  let vel := entity.vel
  let entity :=
    if entity.control.jump || entity.jumpQueued then
      let jumpTicks :=
        if entity.jumpTicks > 0 then entity.jumpTicks - 1 else entity.jumpTicks
      if entity.isInWater || entity.isInLava then
        { entity with
          vel := { vel with y := vel.y + 0.04 },
          jumpTicks := jumpTicks }
      else if entity.onGround ∧ jumpTicks = 0 then
        let blockBelow := getBlock world ((entity.pos.floored).offset 0 (-0.5) 0)
        let vy := jumpVelocityBase *
          (match blockBelow with
            | some b => if b.type = ctx.honeyblockId then honeyblockJumpSpeed else 1
            | none => 1)
        let vy := if entity.jumpBoost > 0 then vy + 0.1 * entity.jumpBoost else vy
        let vxz :=
          if entity.control.sprint then
            let yaw := ctx.pi - entity.yaw
            (vel.x - ctx.sin yaw * 0.2, vel.z + ctx.cos yaw * 0.2)
          else (vel.x, vel.z)
        { entity with
          vel := (Vec3.mk vxz.1 vy vxz.2),
          jumpTicks := autojumpCooldown }
      else { entity with jumpTicks := jumpTicks }
    else { entity with jumpTicks := 0 }
  { entity with jumpQueued := false }

/-- Lines 793-805 of `simulatePlayer`: the elytra-flying gate and the
firework-rocket thrust. -/
def simElytraFirework (ctx : Ctx) (entity : Entity) : Entity :=
  let entity := { entity with elytraFlying :=
    (entity.elytraFlying && entity.elytraEquipped && !entity.onGround &&
      decide (entity.levitation = 0)) }
  if entity.fireworkRocketDuration > 0 then
    if ¬entity.elytraFlying then { entity with fireworkRocketDuration := 0 }
    else
      let lv := getLookingVector ctx entity
      let v := entity.vel
      { entity with
        vel := (Vec3.mk
          (v.x + lv.lookDir.x * 0.1 + (lv.lookDir.x * 1.5 - v.x) * 0.5)
          (v.y + lv.lookDir.y * 0.1 + (lv.lookDir.y * 1.5 - v.y) * 0.5)
          (v.z + lv.lookDir.z * 0.1 + (lv.lookDir.z * 1.5 - v.z) * 0.5)),
        fireworkRocketDuration := entity.fireworkRocketDuration - 1 }
  else entity

/-- `physics.simulatePlayer(entity, world)` (lines 747-810). -/
def simulatePlayer (ctx : Ctx) (world : World) (entity : Entity) :
    Option Entity :=
  let entity := simFlagsAndDeadZone ctx world entity
  let entity := simJump ctx world entity
  let strafe := (b2q entity.control.right - b2q entity.control.left) * 0.98
  let forward := (b2q entity.control.forward - b2q entity.control.back) * 0.98
  let sf :=
    if entity.control.sneak then (strafe * sneakSpeed, forward * sneakSpeed)
    else (strafe, forward)
  let entity := simElytraFirework ctx entity
  moveEntityWithHeading ctx world entity sf.1 sf.2

/-! ## FeatureList (src/index.js lines 22-54) and the liquid-gravity
construction step (lines 148-156) -/

/-- Model of the external version object (§6): the `majorVersion` string
and the comparison methods `>`, `>=`, `<`, `<=`, `==`, dispatched by name
as `version[predicateName](parameter)` does. -/
structure VersionObj where
  majorVersion : String
  pred : String → String → Bool

/-- One entry of a feature's `versions` list: a bare string or an
AND-array of strings. -/
inductive VersionCondition where
  | str (s : String)
  | many (cs : List String)
deriving DecidableEq, Repr

/-- One record of `features.json`: `{name, versions}`. -/
structure Feature where
  name : String
  versions : List VersionCondition
deriving DecidableEq, Repr

/-- JS `string.split(' ')`, rendered over the character list so that it
evaluates: split on every space, keeping empty pieces. -/
def jsSplitSpace (s : String) : List String :=
  (s.data.splitOn ' ').map String.mk

/-- `FeatureList.checkVersion(version, condition)` (lines 23-27): split on
space; with no parameter compare against `majorVersion`, else call the
named comparison method. -/
def checkVersion (version : VersionObj) (condition : String) : Bool :=
  match jsSplitSpace condition with
  | [predicateName] => predicateName == version.majorVersion
  | predicateName :: parameter :: _ => version.pred predicateName parameter
  | [] => false

/-- The `flag` computed for one `versions` entry (lines 34-41): an array
entry AND-reduces via `flag &= checkVersion(...)`. -/
def condFlag (version : VersionObj) : VersionCondition → Bool
  | .str c => checkVersion version c
  | .many cs => cs.foldl (fun flag c => flag && checkVersion version c) true

/-- The inner loop of the `FeatureList` constructor (lines 33-47): scan the
entries and stop at the first satisfied one. -/
def featEnabled (version : VersionObj) : List VersionCondition → Bool
  | [] => false
  | vc :: rest =>
    if condFlag version vc then true else featEnabled version rest

/-- `supportFeature(name)` over the set built by the `FeatureList`
constructor: some record with that name has a satisfied entry. -/
def supportFeatureIn (feats : List Feature) (version : VersionObj)
    (featureName : String) : Bool :=
  feats.any fun f => f.name == featureName && featEnabled version f.versions

/-- The error message thrown at line 155. -/
def noLiquidGravityMsg : String :=
  "No liquid gravity settings, have you made sure the liquid gravity features are up to date?"

/-- Lines 148-156 of the `Physics` constructor: the feature-gated
`(waterGravity, lavaGravity)` pair, or the construction error. -/
def liquidGravitySettings (supportFeature : String → Bool) :
    Except String (ℚ × ℚ) :=
  if supportFeature "independentLiquidGravity" then .ok (0.02, 0.02)
  else if supportFeature "proportionalLiquidGravity" then
    .ok (gravity / 16, gravity / 4)
  else .error noLiquidGravityMsg

/-! ## Concrete fixtures for the scenario theorems -/

/-- A concrete per-version context: distinct block ids, a modern feature
set (`climableTrapdoor`, `velocityBlocksOnCollision`), independent liquid
gravity, and arbitrary instantiations of the abstract `Math` functions
(the scenario runs never depend on them). -/
def ctx0 : Ctx where
  slimeBlockId := 1
  soulsandId := 2
  honeyblockId := 3
  webId := 4
  ladderId := 5
  vineId := 6
  bubblecolumnId := 7
  waterIds := [8, 9]
  lavaIds := [10, 11]
  trapdoorIds := [12]
  waterLike := [13]
  blockSlipperiness := fun _ => none
  supportFeature := fun n =>
    n == "climableTrapdoor" || n == "velocityBlocksOnCollision"
  waterGravity := 0.02
  lavaGravity := 0.02
  movementSpeedAttribute := "minecraft:generic.movement_speed"
  sin := fun _ => 0
  cos := fun _ => 0
  sqrt := fun _ => 0
  pi := 0

/-- The empty world: every `getBlock` read returns `null`. -/
def emptyWorld : World := fun _ _ _ => none

/-- All control inputs released. -/
def allOff : Control := ⟨false, false, false, false, false, false, false⟩

/-- The S1 free-fall entity: at rest at `(0, 10, 0)`, airborne, no
effects, no inputs. -/
def e0 : Entity where
  pos := ⟨0, 10, 0⟩
  vel := ⟨0, 0, 0⟩
  yaw := 0
  pitch := 0
  onGround := false
  isInWater := false
  isInLava := false
  isInWeb := false
  isCollidedHorizontally := false
  isCollidedVertically := false
  elytraFlying := false
  elytraEquipped := false
  jumpTicks := 0
  jumpQueued := false
  fireworkRocketDuration := 0
  jumpBoost := 0
  dolphinsGrace := 0
  slowFalling := 0
  levitation := 0
  depthStrider := 0
  attributes := fun _ => none
  control := allOff

/-! ## C8: `getSurroundingBBs` output characterization -/

/-- C8: `getSurroundingBBs` returns exactly the shape boxes of the
non-null blocks at lattice positions with `y` from `⌊minY⌋ - 1` through
`⌊maxY⌋` and `x`, `z` from `⌊min⌋` through `⌊max⌋`, each translated by
the block's integer position — and nothing else. -/
theorem c8_getSurroundingBBs_mem (world : World) (queryBB : AABB)
    (bb : AABB) :
    bb ∈ getSurroundingBBs world queryBB ↔
      ∃ x y z block shape,
        (⌊queryBB.minY⌋ - 1 ≤ y ∧ y ≤ ⌊queryBB.maxY⌋) ∧
        (⌊queryBB.minZ⌋ ≤ z ∧ z ≤ ⌊queryBB.maxZ⌋) ∧
        (⌊queryBB.minX⌋ ≤ x ∧ x ≤ ⌊queryBB.maxX⌋) ∧
        world x y z = some block ∧ shape ∈ block.shapes ∧
        bb = (shapeToAABB shape).offset block.position.x block.position.y
          block.position.z := by
  unfold getSurroundingBBs
  simp only [List.mem_flatMap, mem_intRangeIncl]
  constructor
  · rintro ⟨y, hy, z, hz, x, hx, hmem⟩
    cases hw : world x y z with
    | none => rw [hw] at hmem; simp at hmem
    | some block =>
      rw [hw] at hmem
      obtain ⟨shape, hs, rfl⟩ := List.mem_map.mp hmem
      exact ⟨x, y, z, block, shape, hy, hz, hx, hw, hs, rfl⟩
  · rintro ⟨x, y, z, block, shape, hy, hz, hx, hw, hs, rfl⟩
    refine ⟨y, hy, z, hz, x, hx, ?_⟩
    rw [hw]
    exact List.mem_map_of_mem _ hs

/-! ## C9: `applyHeading` frame conditions -/

/-- C9: `applyHeading` modifies at most `vel.x` and `vel.z` — the
position, `vel.y` and every other entity field are unchanged — and below
the 0.01 speed threshold the entity is returned untouched. -/
theorem c9_applyHeading_frame (ctx : Ctx) (e : Entity)
    (strafe forward multiplier : ℚ) :
    ((applyHeading ctx e strafe forward multiplier).pos = e.pos ∧
     (applyHeading ctx e strafe forward multiplier).vel.y = e.vel.y ∧
     (applyHeading ctx e strafe forward multiplier).yaw = e.yaw ∧
     (applyHeading ctx e strafe forward multiplier).pitch = e.pitch ∧
     (applyHeading ctx e strafe forward multiplier).onGround = e.onGround ∧
     (applyHeading ctx e strafe forward multiplier).isInWater = e.isInWater ∧
     (applyHeading ctx e strafe forward multiplier).isInLava = e.isInLava ∧
     (applyHeading ctx e strafe forward multiplier).isInWeb = e.isInWeb ∧
     (applyHeading ctx e strafe forward multiplier).isCollidedHorizontally =
       e.isCollidedHorizontally ∧
     (applyHeading ctx e strafe forward multiplier).isCollidedVertically =
       e.isCollidedVertically ∧
     (applyHeading ctx e strafe forward multiplier).elytraFlying =
       e.elytraFlying ∧
     (applyHeading ctx e strafe forward multiplier).elytraEquipped =
       e.elytraEquipped ∧
     (applyHeading ctx e strafe forward multiplier).jumpTicks = e.jumpTicks ∧
     (applyHeading ctx e strafe forward multiplier).jumpQueued = e.jumpQueued ∧
     (applyHeading ctx e strafe forward multiplier).fireworkRocketDuration =
       e.fireworkRocketDuration ∧
     (applyHeading ctx e strafe forward multiplier).jumpBoost = e.jumpBoost ∧
     (applyHeading ctx e strafe forward multiplier).dolphinsGrace =
       e.dolphinsGrace ∧
     (applyHeading ctx e strafe forward multiplier).slowFalling =
       e.slowFalling ∧
     (applyHeading ctx e strafe forward multiplier).levitation = e.levitation ∧
     (applyHeading ctx e strafe forward multiplier).depthStrider =
       e.depthStrider ∧
     (applyHeading ctx e strafe forward multiplier).attributes =
       e.attributes ∧
     (applyHeading ctx e strafe forward multiplier).control = e.control) ∧
    (ctx.sqrt (strafe * strafe + forward * forward) < 0.01 →
      applyHeading ctx e strafe forward multiplier = e) := by
  constructor
  · by_cases h : ctx.sqrt (strafe * strafe + forward * forward) < 0.01 <;>
      simp [applyHeading, h]
  · intro h
    simp [applyHeading, h]

/-- C9 witness: at zero inputs with the concrete context (whose square
root function returns 0) the guard fires and the entity is unchanged. -/
theorem c9_witness :
    ctx0.sqrt (0 * 0 + 0 * 0) < 0.01 ∧ applyHeading ctx0 e0 0 0 1 = e0 := by
  have h : ctx0.sqrt (0 * 0 + 0 * 0) < 0.01 := by norm_num [ctx0]
  exact ⟨h, (c9_applyHeading_frame ctx0 e0 0 0 1).2 h⟩

/-! ## C6: `FeatureList` semantics -/

/-- The spec's reading of one condition string: a bare major-version
string (no space) is satisfied iff it equals the version's
`majorVersion`; a "predicate parameter" string is satisfied iff the
version comparison holds. -/
def specStringMatches (v : VersionObj) (s : String) : Prop :=
  match jsSplitSpace s with
  | [bare] => v.majorVersion = bare
  | predicate :: parameter :: _ => v.pred predicate parameter = true
  | [] => False

/-- The spec's reading of one `versions` entry: an array entry is
satisfied iff all its conditions hold (AND). -/
def specCondMatches (v : VersionObj) : VersionCondition → Prop
  | .str s => specStringMatches v s
  | .many cs => ∀ c ∈ cs, specStringMatches v c

theorem foldl_and_eq_all (v : VersionObj) (cs : List String) (b : Bool) :
    cs.foldl (fun flag c => flag && checkVersion v c) b =
      (b && cs.all (checkVersion v)) := by
  induction cs generalizing b with
  | nil => simp
  | cons c rest ih => simp [List.all_cons, ih, Bool.and_assoc]

theorem checkVersion_iff {v : VersionObj} {s : String} :
    checkVersion v s = true ↔ specStringMatches v s := by
  unfold checkVersion specStringMatches
  rcases h : jsSplitSpace s with _ | ⟨a, _ | ⟨b, rest⟩⟩ <;>
    simp only [h, beq_iff_eq] <;> simp [eq_comm]

theorem condFlag_iff {v : VersionObj} {vc : VersionCondition} :
    condFlag v vc = true ↔ specCondMatches v vc := by
  cases vc with
  | str s => exact checkVersion_iff
  | many cs =>
    show cs.foldl (fun flag c => flag && checkVersion v c) true = true ↔
      ∀ c ∈ cs, specStringMatches v c
    rw [foldl_and_eq_all]
    simp only [Bool.true_and, List.all_eq_true]
    constructor
    · intro h c hc; exact checkVersion_iff.mp (h c hc)
    · intro h c hc; exact checkVersion_iff.mpr (h c hc)

theorem featEnabled_iff {v : VersionObj} {l : List VersionCondition} :
    featEnabled v l = true ↔ ∃ vc ∈ l, specCondMatches v vc := by
  induction l with
  | nil => simp [featEnabled]
  | cons vc rest ih =>
    unfold featEnabled
    by_cases h : condFlag v vc = true
    · simp only [h, if_true, true_iff]
      exact ⟨vc, List.mem_cons_self _ _, condFlag_iff.mp h⟩
    · simp only [Bool.not_eq_true] at h
      simp only [h, Bool.false_eq_true, if_false, ih]
      constructor
      · rintro ⟨vc2, h2, h3⟩
        exact ⟨vc2, List.mem_cons_of_mem _ h2, h3⟩
      · rintro ⟨vc2, h2, h3⟩
        rcases List.mem_cons.mp h2 with rfl | h2
        · exact absurd (condFlag_iff.mpr h3) (by simp [h])
        · exact ⟨vc2, h2, h3⟩

/-- C6: the `FeatureList` constructor enables a feature exactly when some
record with that name has a satisfied `versions` entry — the outer list
OR-reduced, array entries AND-reduced, bare strings compared against
`majorVersion` and "pred param" strings dispatched to the version
comparison. -/
theorem c6_featureList (feats : List Feature) (v : VersionObj)
    (name : String) :
    supportFeatureIn feats v name = true ↔
      ∃ f ∈ feats, f.name = name ∧ ∃ vc ∈ f.versions, specCondMatches v vc := by
  unfold supportFeatureIn
  rw [List.any_eq_true]
  constructor
  · rintro ⟨f, hf, hand⟩
    rw [Bool.and_eq_true, beq_iff_eq] at hand
    exact ⟨f, hf, hand.1, featEnabled_iff.mp hand.2⟩
  · rintro ⟨f, hf, hname, hvc⟩
    exact ⟨f, hf, by rw [Bool.and_eq_true, beq_iff_eq]
                     exact ⟨hname, featEnabled_iff.mpr hvc⟩⟩

/-! ## C7: the liquid-gravity construction step -/

/-- C7: `Physics` construction fails with the "no liquid gravity
settings" error exactly when neither liquid-gravity feature matches the
version; `independentLiquidGravity` gives water = lava = 0.02, else
`proportionalLiquidGravity` gives water = gravity/16 = 0.005 and
lava = gravity/4 = 0.02. -/
theorem c7_liquidGravity (feats : List Feature) (v : VersionObj) :
    (liquidGravitySettings (supportFeatureIn feats v) =
        .error noLiquidGravityMsg ↔
      supportFeatureIn feats v "independentLiquidGravity" = false ∧
      supportFeatureIn feats v "proportionalLiquidGravity" = false) ∧
    (supportFeatureIn feats v "independentLiquidGravity" = true →
      liquidGravitySettings (supportFeatureIn feats v) = .ok (0.02, 0.02)) ∧
    (supportFeatureIn feats v "independentLiquidGravity" = false →
      supportFeatureIn feats v "proportionalLiquidGravity" = true →
      liquidGravitySettings (supportFeatureIn feats v) =
        .ok (0.005, 0.02)) := by
  unfold liquidGravitySettings
  cases h1 : supportFeatureIn feats v "independentLiquidGravity" <;>
    cases h2 : supportFeatureIn feats v "proportionalLiquidGravity" <;>
      simp [gravity] <;> norm_num

/-- C7 witness: a one-record feature list whose
`independentLiquidGravity` entry matches the version by bare major
version, so construction succeeds with water = lava = 0.02. -/
theorem c7_witness :
    supportFeatureIn [⟨"independentLiquidGravity", [.str "1.8"]⟩]
        ⟨"1.8", fun _ _ => false⟩ "independentLiquidGravity" = true ∧
      liquidGravitySettings (supportFeatureIn
        [⟨"independentLiquidGravity", [.str "1.8"]⟩]
        ⟨"1.8", fun _ _ => false⟩) = .ok (0.02, 0.02) := by
  have h : supportFeatureIn [⟨"independentLiquidGravity", [.str "1.8"]⟩]
      ⟨"1.8", fun _ _ => false⟩ "independentLiquidGravity" = true := by
    decide
  exact ⟨h, (c7_liquidGravity [⟨"independentLiquidGravity", [.str "1.8"]⟩]
    ⟨"1.8", fun _ _ => false⟩).2.1 h⟩

/-! ## C10: `jumpTicks` stays in `[0, 10]` -/

@[simp] theorem applyHeading_jumpTicks (ctx : Ctx) (e : Entity)
    (s f m : ℚ) : (applyHeading ctx e s f m).jumpTicks = e.jumpTicks := by
  by_cases h : ctx.sqrt (s * s + f * f) < 0.01 <;> simp [applyHeading, h]

@[simp] theorem moveEntityPost_jumpTicks (ctx : Ctx) (world : World)
    (e : Entity) (r : CollisionResult) :
    (moveEntityPost ctx world e r).jumpTicks = e.jumpTicks := rfl

@[simp] theorem moveEntity_jumpTicks (ctx : Ctx) (world : World)
    (e : Entity) (dx dy dz : ℚ) :
    (moveEntity ctx world e dx dy dz).jumpTicks = e.jumpTicks := by
  by_cases h : e.isInWeb <;> simp [moveEntity, moveEntityWebbed, h]

@[simp] theorem simFlagsAndDeadZone_jumpTicks (ctx : Ctx) (world : World)
    (e : Entity) :
    (simFlagsAndDeadZone ctx world e).jumpTicks = e.jumpTicks := rfl

theorem simJump_bounds (ctx : Ctx) (world : World) (e : Entity)
    (h0 : 0 ≤ e.jumpTicks) (h1 : e.jumpTicks ≤ 10) :
    0 ≤ (simJump ctx world e).jumpTicks ∧
      (simJump ctx world e).jumpTicks ≤ 10 := by
  unfold simJump
  by_cases hj : (e.control.jump || e.jumpQueued) = true <;>
    simp only [hj, if_true, if_false, Bool.false_eq_true] <;>
    [skip; (constructor <;> simp)]
  by_cases hl : (e.isInWater || e.isInLava) = true <;>
    simp only [hl, if_true, if_false, Bool.false_eq_true]
  · by_cases hjt : e.jumpTicks > 0 <;> simp [hjt] <;> omega
  · by_cases hjt : e.jumpTicks > 0 <;>
      simp only [hjt, if_true, if_false] <;>
      split <;> simp [autojumpCooldown] <;> omega

@[simp] theorem simElytraFirework_jumpTicks (ctx : Ctx) (e : Entity) :
    (simElytraFirework ctx e).jumpTicks = e.jumpTicks := by
  unfold simElytraFirework
  simp only [apply_ite Entity.jumpTicks, ite_self]

theorem moveEntityWithHeading_jumpTicks (ctx : Ctx) (world : World)
    (e : Entity) (s f : ℚ) (e2 : Entity)
    (h : moveEntityWithHeading ctx world e s f = some e2) :
    e2.jumpTicks = e.jumpTicks := by
  unfold moveEntityWithHeading at h
  by_cases hl : (e.isInWater || e.isInLava) = true
  · simp only [hl, if_true] at h
    obtain rfl := Option.some.inj h
    simp only [apply_ite Entity.jumpTicks, liquidPostMove,
      moveEntity_jumpTicks, applyHeading_jumpTicks, ite_self]
  · simp only [hl, Bool.false_eq_true, if_false] at h
    by_cases he : e.elytraFlying = true
    · simp only [he, if_true] at h
      obtain rfl := Option.some.inj h
      simp only [apply_ite Entity.jumpTicks, moveEntity_jumpTicks, ite_self]
    · simp only [he, Bool.false_eq_true, if_false] at h
      obtain ⟨l1, hl1, h⟩ := Option.bind_eq_some.mp h
      obtain ⟨l2, hl2, h⟩ := Option.bind_eq_some.mp h
      obtain rfl := Option.some.inj h
      simp only [apply_ite Entity.jumpTicks, moveEntity_jumpTicks,
        applyHeading_jumpTicks, ite_self]

/-- C10: a tick keeps `jumpTicks` within `[0, 10]`: the jump handler only
decrements it when positive, resets it to the autojump cooldown 10 on a
ground jump, or zeroes it, and no later step of the tick touches it. -/
theorem c10_jumpTicks_invariant (ctx : Ctx) (world : World) (e : Entity)
    (h0 : 0 ≤ e.jumpTicks) (h1 : e.jumpTicks ≤ 10) (e2 : Entity)
    (h : simulatePlayer ctx world e = some e2) :
    0 ≤ e2.jumpTicks ∧ e2.jumpTicks ≤ 10 := by
  unfold simulatePlayer at h
  have hmt := moveEntityWithHeading_jumpTicks _ _ _ _ _ _ h
  rw [simElytraFirework_jumpTicks] at hmt
  have hb := simJump_bounds ctx world (simFlagsAndDeadZone ctx world e)
    (by simpa using h0) (by simpa using h1)
  omega

/-! ## C3: velocity zeroing on clamped axes -/

theorem velAfterClamp_x_zero (ctx : Ctx) (sneak : Bool) (vel : Vec3)
    (r : CollisionResult) (baf : Option Block) (h : r.dx ≠ r.oldVelX) :
    (velAfterClamp ctx sneak vel r baf).x = 0 := by
  unfold velAfterClamp
  simp only [if_pos h]
  by_cases hz : r.dz ≠ r.oldVelZ <;> by_cases hy : r.dy ≠ r.oldVelY <;>
    simp [hz, hy] <;> cases baf <;> simp <;> split <;> simp

theorem velAfterClamp_z_zero (ctx : Ctx) (sneak : Bool) (vel : Vec3)
    (r : CollisionResult) (baf : Option Block) (h : r.dz ≠ r.oldVelZ) :
    (velAfterClamp ctx sneak vel r baf).z = 0 := by
  unfold velAfterClamp
  by_cases hx : r.dx ≠ r.oldVelX <;> by_cases hy : r.dy ≠ r.oldVelY <;>
    simp [hx, hy, if_pos h] <;> cases baf <;> simp <;> split <;> simp

theorem soulsandHoneyScale_x_zero (ctx : Ctx) (btype : Int) (vel : Vec3)
    (h : vel.x = 0) : (soulsandHoneyScale ctx btype vel).x = 0 := by
  unfold soulsandHoneyScale
  split
  · simp [h]
  · split
    · simp [h]
    · exact h

theorem soulsandHoneyScale_z_zero (ctx : Ctx) (btype : Int) (vel : Vec3)
    (h : vel.z = 0) : (soulsandHoneyScale ctx btype vel).z = 0 := by
  unfold soulsandHoneyScale
  split
  · simp [h]
  · split
    · simp [h]
    · exact h

theorem blockEffectsStep_x_zero (ctx : Ctx) (world : World)
    (st : Vec3 × Bool) (p : Int × Int × Int) (h : st.1.x = 0) :
    ((blockEffectsStep ctx world st p).1).x = 0 := by
  obtain ⟨vel, web⟩ := st
  simp only at h
  unfold blockEffectsStep
  cases world p.1 p.2.1 p.2.2 with
  | none => exact h
  | some block =>
    have h2 : (if ctx.supportFeature "velocityBlocksOnCollision" = true then
        soulsandHoneyScale ctx block.type vel else vel).x = 0 := by
      split
      · exact soulsandHoneyScale_x_zero _ _ _ h
      · exact h
    dsimp only
    split
    · exact h2
    · split
      · split <;> simpa using h2
      · exact h2

theorem blockEffectsStep_z_zero (ctx : Ctx) (world : World)
    (st : Vec3 × Bool) (p : Int × Int × Int) (h : st.1.z = 0) :
    ((blockEffectsStep ctx world st p).1).z = 0 := by
  obtain ⟨vel, web⟩ := st
  simp only at h
  unfold blockEffectsStep
  cases world p.1 p.2.1 p.2.2 with
  | none => exact h
  | some block =>
    have h2 : (if ctx.supportFeature "velocityBlocksOnCollision" = true then
        soulsandHoneyScale ctx block.type vel else vel).z = 0 := by
      split
      · exact soulsandHoneyScale_z_zero _ _ _ h
      · exact h
    dsimp only
    split
    · exact h2
    · split
      · split <;> simpa using h2
      · exact h2

theorem blockEffects_fold_x_zero (ctx : Ctx) (world : World)
    (ps : List (Int × Int × Int)) (st : Vec3 × Bool) (h : st.1.x = 0) :
    ((ps.foldl (blockEffectsStep ctx world) st).1).x = 0 := by
  induction ps generalizing st with
  | nil => exact h
  | cons p rest ih =>
    rw [List.foldl_cons]
    exact ih _ (blockEffectsStep_x_zero _ _ _ _ h)

theorem blockEffects_fold_z_zero (ctx : Ctx) (world : World)
    (ps : List (Int × Int × Int)) (st : Vec3 × Bool) (h : st.1.z = 0) :
    ((ps.foldl (blockEffectsStep ctx world) st).1).z = 0 := by
  induction ps generalizing st with
  | nil => exact h
  | cons p rest ih =>
    rw [List.foldl_cons]
    exact ih _ (blockEffectsStep_z_zero _ _ _ _ h)

theorem velocityBlocksOnTopAdjust_x_zero (ctx : Ctx) (world : World)
    (pos : Vec3) (vel : Vec3) (h : vel.x = 0) :
    (velocityBlocksOnTopAdjust ctx world pos vel).x = 0 := by
  unfold velocityBlocksOnTopAdjust
  split
  · split
    · exact soulsandHoneyScale_x_zero _ _ _ h
    · exact h
  · exact h

theorem velocityBlocksOnTopAdjust_z_zero (ctx : Ctx) (world : World)
    (pos : Vec3) (vel : Vec3) (h : vel.z = 0) :
    (velocityBlocksOnTopAdjust ctx world pos vel).z = 0 := by
  unfold velocityBlocksOnTopAdjust
  split
  · split
    · exact soulsandHoneyScale_z_zero _ _ _ h
    · exact h
  · exact h

theorem velAfterClamp_y (ctx : Ctx) (sneak : Bool) (vel : Vec3)
    (r : CollisionResult) (baf : Option Block) :
    (velAfterClamp ctx sneak vel r baf).y =
      if r.dy ≠ r.oldVelY then
        if (∃ b, baf = some b ∧ b.type = ctx.slimeBlockId) ∧ ¬sneak = true
        then -vel.y else 0
      else vel.y := by
  unfold velAfterClamp
  by_cases hy : r.dy ≠ r.oldVelY
  · cases baf with
    | none => simp [hy, apply_ite Vec3.y]
    | some b =>
      by_cases hb : b.type = ctx.slimeBlockId ∧ ¬sneak = true
      · simp [hy, hb.1, hb.2, apply_ite Vec3.y]
      · have hb2 : ¬(b.type = ctx.slimeBlockId ∧ sneak = false) := by
          simpa using hb
        simp [hy, hb2, apply_ite Vec3.y]
  · simp [hy, apply_ite Vec3.y]

/-- C3 (amended): when the X delta is clamped during collision
resolution, `vel.x` is zero after the call (likewise Z); and at the
velocity-zeroing step a clamped Y sets `vel.y` to `-vel.y` exactly when
the block at `pos + (0, -0.2, 0)` is slime and sneak is not held, else to
zero.  (The converse — zero velocity implies a clamp — does not hold; see
the counterexample.) -/
theorem c3_velocity_zeroing (ctx : Ctx) (world : World) (e : Entity)
    (dx dy dz : ℚ) :
    ((moveEntityResolution world e dx dy dz).dx ≠
        (moveEntityResolution world e dx dy dz).oldVelX →
      (moveEntity ctx world e dx dy dz).vel.x = 0) ∧
    ((moveEntityResolution world e dx dy dz).dz ≠
        (moveEntityResolution world e dx dy dz).oldVelZ →
      (moveEntity ctx world e dx dy dz).vel.z = 0) ∧
    (∀ (sneak : Bool) (vel : Vec3) (baf : Option Block),
      (velAfterClamp ctx sneak vel (moveEntityResolution world e dx dy dz)
          baf).y =
        if (moveEntityResolution world e dx dy dz).dy ≠
            (moveEntityResolution world e dx dy dz).oldVelY then
          if (∃ b, baf = some b ∧ b.type = ctx.slimeBlockId) ∧ ¬sneak = true
          then -vel.y else 0
        else vel.y) := by
  refine ⟨?_, ?_, ?_⟩
  · intro h
    show (moveEntityPost ctx world (moveEntityWebbed e dx dy dz).1
      (moveEntityResolution world e dx dy dz)).vel.x = 0
    unfold moveEntityPost
    exact velocityBlocksOnTopAdjust_x_zero _ _ _ _
      (blockEffects_fold_x_zero _ _ _ _ (velAfterClamp_x_zero _ _ _ _ _ h))
  · intro h
    show (moveEntityPost ctx world (moveEntityWebbed e dx dy dz).1
      (moveEntityResolution world e dx dy dz)).vel.z = 0
    unfold moveEntityPost
    exact velocityBlocksOnTopAdjust_z_zero _ _ _ _
      (blockEffects_fold_z_zero _ _ _ _ (velAfterClamp_z_zero _ _ _ _ _ h))
  · intro sneak vel baf
    exact velAfterClamp_y ctx sneak vel _ baf

/-- C3 counterexample: in the empty world with zero deltas nothing is
clamped, yet `vel.x` is zero — so "`vel.x` is zero iff the X delta was
clamped" fails in the only-if direction. -/
theorem c3_counterexample :
    ¬(((moveEntity ctx0 emptyWorld e0 0 0 0).vel.x = 0) ↔
      (moveEntityResolution emptyWorld e0 0 0 0).dx ≠
        (moveEntityResolution emptyWorld e0 0 0 0).oldVelX) := by
  have h1 : (moveEntity ctx0 emptyWorld e0 0 0 0).vel.x = 0 := by
    norm_num [moveEntity, moveEntityWebbed, resolveCollisions, moveEntityPost,
      velAfterClamp, blockEffectsStep, soulsandHoneyScale,
      velocityBlocksOnTopAdjust, getBlock, getSurroundingBBs, intRangeIncl,
      intRangeGo, latticePositions, getPlayerBB, setPositionToBB, shapeToAABB,
      AABB.offset, AABB.extend, AABB.contract, AABB.computeOffsetX,
      AABB.computeOffsetY, AABB.computeOffsetZ, Vec3.offset, Vec3.floored,
      playerHalfWidth, playerHeight, stepHeight, ctx0, emptyWorld, e0, allOff]
  have h2 : (moveEntityResolution emptyWorld e0 0 0 0).dx =
      (moveEntityResolution emptyWorld e0 0 0 0).oldVelX := by
    norm_num [moveEntityResolution, moveEntityWebbed, resolveCollisions,
      getBlock, getSurroundingBBs, intRangeIncl, intRangeGo, getPlayerBB,
      shapeToAABB, AABB.offset, AABB.extend, AABB.computeOffsetX,
      AABB.computeOffsetY, AABB.computeOffsetZ, Vec3.offset,
      playerHalfWidth, playerHeight, stepHeight, emptyWorld, e0, allOff]
  intro hiff
  exact (hiff.mp h1) h2

/-- The wall block for the C3 witness: a full cube at `(1, 64, 0)`. -/
def wallBlock : Block :=
  ⟨100, 0, ⟨1, 64, 0⟩, [(0, 0, 0, 1, 1, 1)], false, "north", false, "block"⟩

/-- A world with only the wall block. -/
def wallWorld : World := fun x y z =>
  if x = 1 ∧ y = 64 ∧ z = 0 then some wallBlock else none

/-- An airborne entity just west of the wall, moving east. -/
def eWall : Entity := { e0 with pos := ⟨0.5, 64, 0.5⟩, vel := ⟨1, 0, 0⟩ }

/-- C3 witness: moving `dx = 1` into the wall clamps X (to 0.2), and the
amended theorem yields `vel.x = 0` after the call. -/
theorem c3_witness :
    (moveEntityResolution wallWorld eWall 1 0 0).dx ≠
      (moveEntityResolution wallWorld eWall 1 0 0).oldVelX ∧
    (moveEntity ctx0 wallWorld eWall 1 0 0).vel.x = 0 := by
  have h : (moveEntityResolution wallWorld eWall 1 0 0).dx ≠
      (moveEntityResolution wallWorld eWall 1 0 0).oldVelX := by
    norm_num [moveEntityResolution, moveEntityWebbed, resolveCollisions,
      getBlock, getSurroundingBBs, intRangeIncl, intRangeGo, getPlayerBB,
      shapeToAABB, AABB.offset, AABB.extend, AABB.computeOffsetX,
      AABB.computeOffsetY, AABB.computeOffsetZ, Vec3.offset,
      playerHalfWidth, playerHeight, stepHeight, wallWorld, wallBlock, eWall,
      e0, allOff]
  exact ⟨h, (c3_velocity_zeroing ctx0 wallWorld eWall 1 0 0).1 h⟩

/-! ## C4: the jump-out-of-liquid impulse -/

/-- C4: in the liquid regime, after the move and the inertia/gravity
velocity updates, `vel.y` becomes 0.3 exactly when the entity is
horizontally collided and would not collide when translated from the
post-move position by `(vel.x, vel.y + 0.6 - (pos.y - lastY), vel.z)`;
otherwise it keeps the inertia-and-liquid-gravity value. -/
theorem c4_liquid_jump_out (ctx : Ctx) (world : World) (e : Entity)
    (strafe forward : ℚ) (h : (e.isInWater || e.isInLava) = true) :
    ∃ e2, moveEntityWithHeading ctx world e strafe forward = some e2 ∧
      e2.vel.y =
        (let em := liquidPostMove ctx world e strafe forward
         let gm : ℚ :=
           if e.vel.y ≤ 0 ∧ e.slowFalling > 0 then slowFallingConst else 1
         let vyKeep := em.vel.y *
             (if e.isInWater then waterInertia else lavaInertia) -
           (if em.isInWater then ctx.waterGravity else ctx.lavaGravity) * gm
         let vx := em.vel.x * (liquidHA e).1
         let vz := em.vel.z * (liquidHA e).1
         if em.isCollidedHorizontally = true ∧
             doesNotCollide ctx world (em.pos.offset vx
               (vyKeep + 0.6 - (em.pos.y - e.pos.y)) vz) = true
         then outOfLiquidImpulse else vyKeep) := by
  unfold moveEntityWithHeading
  simp only [h, if_true]
  refine ⟨_, rfl, ?_⟩
  have harg : ∀ a b c : ℚ, a + 0.6 - (b - c) = a + 0.6 - b + c := by
    intros; ring
  simp only [harg, liquidInertia]
  simp [Bool.and_eq_true, apply_ite Entity.vel, apply_ite Vec3.y]

/-- An entity at rest in water (flags set; the world is empty, which the
liquid branch never re-checks). -/
def eWater : Entity := { e0 with isInWater := true }

set_option maxHeartbeats 4000000 in
/-- C4 witness: at rest in water with no collision the impulse is not
applied and `vel.y` becomes `0·0.8 - waterGravity = -0.02`. -/
theorem c4_witness :
    (eWater.isInWater || eWater.isInLava) = true ∧
    ∃ e2, moveEntityWithHeading ctx0 emptyWorld eWater 0 0 = some e2 ∧
      e2.vel.y = -0.02 := by
  have h : (eWater.isInWater || eWater.isInLava) = true := rfl
  obtain ⟨e2, heq, hy⟩ := c4_liquid_jump_out ctx0 emptyWorld eWater 0 0 h
  refine ⟨h, e2, heq, ?_⟩
  rw [hy]
  norm_num [liquidPostMove, liquidHA, liquidInertia, applyHeading,
    moveEntity, moveEntityWebbed, resolveCollisions, moveEntityPost,
    velAfterClamp, blockEffectsStep, soulsandHoneyScale,
    velocityBlocksOnTopAdjust, getBlock, getSurroundingBBs, intRangeIncl,
    intRangeGo, latticePositions, getPlayerBB, setPositionToBB, shapeToAABB,
    AABB.offset, AABB.extend, AABB.contract, AABB.computeOffsetX,
    AABB.computeOffsetY, AABB.computeOffsetZ, Vec3.offset, Vec3.floored,
    playerHalfWidth, playerHeight, stepHeight, waterInertia, lavaInertia,
    liquidAcceleration, slowFallingConst, ctx0, emptyWorld, eWater, e0, allOff]

/-! ## C1: the S1 free-fall tick -/

set_option maxHeartbeats 4000000 in
/-- C1 counterexample: in the S1 free-fall tick the position does not
drop this tick (the move integrates the entering zero velocity), so
`pos.y = 10 ≠ 10 - 0.0784`; and the exact post-tick `vel.y` is
`-0.08 · fround(0.98)`, which is not `-0.0784`. -/
theorem c1_counterexample :
    (simulatePlayer ctx0 emptyWorld e0).map (fun e => e.pos.y) = some 10 ∧
    (10 : ℚ) ≠ 10 - 0.0784 ∧
    (simulatePlayer ctx0 emptyWorld e0).map (fun e => e.vel.y) =
      some (-0.08 * airdrag) ∧
    (-0.08 * airdrag : ℚ) ≠ -0.0784 := by
  refine ⟨?_, by norm_num, ?_, by norm_num [airdrag]⟩ <;>
    norm_num [simulatePlayer, simFlagsAndDeadZone, simJump, simElytraFirework,
      moveEntityWithHeading, moveEntity, moveEntityWebbed, resolveCollisions,
      moveEntityPost, velAfterClamp, blockEffectsStep, soulsandHoneyScale,
      velocityBlocksOnTopAdjust, isOnLadder, getBlock, applyHeading,
      isInWaterApplyCurrent, getWaterInBB, isMaterialInBB, latticePositions,
      getSurroundingBBs, intRangeIncl, intRangeGo, getPlayerBB,
      setPositionToBB, shapeToAABB, AABB.offset, AABB.extend, AABB.contract,
      AABB.computeOffsetX, AABB.computeOffsetY, AABB.computeOffsetZ,
      Vec3.offset, Vec3.floored, Vec3.add, vecNorm, vecNormalize, getFlow,
      getLiquidHeightPcent, getRenderedDepth, doesNotCollide, clamp,
      createAttributeValue, deleteAttributeModifier, checkAttributeModifier,
      addAttributeModifier, getAttributeValue, getLookingVector, b2q, gravity,
      playerSpeed, sprintSpeed, sneakSpeed, stepHeight, negligeableVelocity,
      soulsandSpeed, honeyblockSpeed, honeyblockJumpSpeed, ladderMaxSpeed,
      ladderClimbSpeed, playerHalfWidth, playerHeight, waterInertia,
      lavaInertia, liquidAcceleration, airborneInertia, airborneAcceleration,
      defaultSlipperiness, outOfLiquidImpulse, autojumpCooldown,
      slowFallingConst, sprintingUUID, jumpVelocityBase, ctx0, emptyWorld,
      e0, allOff]

set_option maxHeartbeats 4000000 in
/-- C1 (amended): the S1 free-fall tick leaves the position at
`(0, 10, 0)` — the move happens before gravity, with the entering zero
velocity — sets `vel = (0, -0.08 · fround(0.98), 0)` (approximately but
not exactly `-0.0784`), and leaves `onGround` false. -/
theorem c1_free_fall :
    (simulatePlayer ctx0 emptyWorld e0).map
      (fun e => (e.pos, e.vel, e.onGround)) =
    some (⟨0, 10, 0⟩, ⟨0, -0.08 * airdrag, 0⟩, false) := by
  norm_num [simulatePlayer, simFlagsAndDeadZone, simJump, simElytraFirework,
    moveEntityWithHeading, moveEntity, moveEntityWebbed, resolveCollisions,
    moveEntityPost, velAfterClamp, blockEffectsStep, soulsandHoneyScale,
    velocityBlocksOnTopAdjust, isOnLadder, getBlock, applyHeading,
    isInWaterApplyCurrent, getWaterInBB, isMaterialInBB, latticePositions,
    getSurroundingBBs, intRangeIncl, intRangeGo, getPlayerBB,
    setPositionToBB, shapeToAABB, AABB.offset, AABB.extend, AABB.contract,
    AABB.computeOffsetX, AABB.computeOffsetY, AABB.computeOffsetZ,
    Vec3.offset, Vec3.floored, Vec3.add, vecNorm, vecNormalize, getFlow,
    getLiquidHeightPcent, getRenderedDepth, doesNotCollide, clamp,
    createAttributeValue, deleteAttributeModifier, checkAttributeModifier,
    addAttributeModifier, getAttributeValue, getLookingVector, b2q, gravity,
    playerSpeed, sprintSpeed, sneakSpeed, stepHeight, negligeableVelocity,
    soulsandSpeed, honeyblockSpeed, honeyblockJumpSpeed, ladderMaxSpeed,
    ladderClimbSpeed, playerHalfWidth, playerHeight, waterInertia,
    lavaInertia, liquidAcceleration, airborneInertia, airborneAcceleration,
    defaultSlipperiness, outOfLiquidImpulse, autojumpCooldown,
    slowFallingConst, sprintingUUID, jumpVelocityBase, ctx0, emptyWorld,
    e0, allOff]

/-! ## C5: the S2 jump tick -/

/-- The solid ground block at `(0, 63, 0)` for the S2 scenario. -/
def groundBlock : Block :=
  ⟨100, 0, ⟨0, 63, 0⟩, [(0, 0, 0, 1, 1, 1)], false, "north", false, "block"⟩

/-- The S2 world: only the ground block. -/
def s2World : World := fun x y z =>
  if x = 0 ∧ y = 63 ∧ z = 0 then some groundBlock else none

/-- The S2 entity: standing at `(0.5, 64, 0.5)` on the ground block,
`jump` held, `jumpTicks = 0`, no effects. -/
def eJump : Entity :=
  { e0 with
    pos := ⟨0.5, 64, 0.5⟩,
    onGround := true,
    control := { allOff with jump := true } }

set_option maxHeartbeats 4000000 in
/-- C5 counterexample: after the full S2 tick `vel.y` is
`(fround(0.42) - 0.08) · fround(0.98)` — gravity and drag have already
acted on the jump impulse — which is not `fround(0.42)`. -/
theorem c5_counterexample :
    (simulatePlayer ctx0 s2World eJump).map (fun e => e.vel.y) =
      some ((jumpVelocityBase - 0.08) * airdrag) ∧
    (jumpVelocityBase - 0.08) * airdrag ≠ jumpVelocityBase := by
  constructor
  · norm_num [simulatePlayer, simFlagsAndDeadZone, simJump, simElytraFirework,
      moveEntityWithHeading, moveEntity, moveEntityWebbed, resolveCollisions,
      moveEntityPost, velAfterClamp, blockEffectsStep, soulsandHoneyScale,
      velocityBlocksOnTopAdjust, isOnLadder, getBlock, applyHeading,
      isInWaterApplyCurrent, getWaterInBB, isMaterialInBB, latticePositions,
      getSurroundingBBs, intRangeIncl, intRangeGo, getPlayerBB,
      setPositionToBB, shapeToAABB, AABB.offset, AABB.extend, AABB.contract,
      AABB.computeOffsetX, AABB.computeOffsetY, AABB.computeOffsetZ,
      Vec3.offset, Vec3.floored, Vec3.add, vecNorm, vecNormalize, getFlow,
      getLiquidHeightPcent, getRenderedDepth, doesNotCollide, clamp,
      createAttributeValue, deleteAttributeModifier, checkAttributeModifier,
      addAttributeModifier, getAttributeValue, getLookingVector, b2q, gravity,
      playerSpeed, sprintSpeed, sneakSpeed, stepHeight, negligeableVelocity,
      soulsandSpeed, honeyblockSpeed, honeyblockJumpSpeed, ladderMaxSpeed,
      ladderClimbSpeed, playerHalfWidth, playerHeight, waterInertia,
      lavaInertia, liquidAcceleration, airborneInertia, airborneAcceleration,
      defaultSlipperiness, outOfLiquidImpulse, autojumpCooldown,
      slowFallingConst, sprintingUUID, jumpVelocityBase, airdrag, ctx0,
      s2World, groundBlock, eJump, e0, allOff]
  · norm_num [jumpVelocityBase, airdrag]

set_option maxHeartbeats 4000000 in
/-- C5 (amended): the S2 jump sets the vertical velocity to
`fround(0.42)` for the move — `pos.y` rises by exactly `fround(0.42)` —
and the end-of-tick velocity is `(fround(0.42) - 0.08) · fround(0.98)`;
`jumpTicks` becomes 10 and `onGround` false. -/
theorem c5_jump_tick :
    (simulatePlayer ctx0 s2World eJump).map
      (fun e => (e.pos, e.vel, e.onGround, e.jumpTicks)) =
    some (⟨0.5, 64 + jumpVelocityBase, 0.5⟩,
      ⟨0, (jumpVelocityBase - 0.08) * airdrag, 0⟩, false, 10) := by
  norm_num [simulatePlayer, simFlagsAndDeadZone, simJump, simElytraFirework,
    moveEntityWithHeading, moveEntity, moveEntityWebbed, resolveCollisions,
    moveEntityPost, velAfterClamp, blockEffectsStep, soulsandHoneyScale,
    velocityBlocksOnTopAdjust, isOnLadder, getBlock, applyHeading,
    isInWaterApplyCurrent, getWaterInBB, isMaterialInBB, latticePositions,
    getSurroundingBBs, intRangeIncl, intRangeGo, getPlayerBB,
    setPositionToBB, shapeToAABB, AABB.offset, AABB.extend, AABB.contract,
    AABB.computeOffsetX, AABB.computeOffsetY, AABB.computeOffsetZ,
    Vec3.offset, Vec3.floored, Vec3.add, vecNorm, vecNormalize, getFlow,
    getLiquidHeightPcent, getRenderedDepth, doesNotCollide, clamp,
    createAttributeValue, deleteAttributeModifier, checkAttributeModifier,
    addAttributeModifier, getAttributeValue, getLookingVector, b2q, gravity,
    playerSpeed, sprintSpeed, sneakSpeed, stepHeight, negligeableVelocity,
    soulsandSpeed, honeyblockSpeed, honeyblockJumpSpeed, ladderMaxSpeed,
    ladderClimbSpeed, playerHalfWidth, playerHeight, waterInertia,
    lavaInertia, liquidAcceleration, airborneInertia, airborneAcceleration,
    defaultSlipperiness, outOfLiquidImpulse, autojumpCooldown,
    slowFallingConst, sprintingUUID, jumpVelocityBase, airdrag, ctx0,
    s2World, groundBlock, eJump, e0, allOff]

/-! ## C2: the null dereference in `isOnLadder` -/

/-- An open in-catalogue trapdoor at `(0, 64, 0)`. -/
def trapdoorBlock : Block :=
  ⟨12, 0, ⟨0, 64, 0⟩, [], true, "north", false, "block"⟩

/-- The C2 world: only the trapdoor; the block below it is `null`. -/
def trapWorld : World := fun x y z =>
  if x = 0 ∧ y = 64 ∧ z = 0 then some trapdoorBlock else none

/-- The C2 entity: standing in the trapdoor cell. -/
def eTrap : Entity := { e0 with pos := ⟨0.5, 64, 0.5⟩ }

set_option maxHeartbeats 4000000 in
/-- C2: with `climableTrapdoor` enabled and an in-catalogue trapdoor at
the queried cell, a `null` block directly below makes `isOnLadder`
dereference `null` (`none` here, a thrown `TypeError` in the source)
instead of returning "not a ladder", and the whole tick fails with it. -/
theorem c2_null_dereference :
    isOnLadder ctx0 trapWorld ⟨0.5, 64, 0.5⟩ = none ∧
    simulatePlayer ctx0 trapWorld eTrap = none := by
  constructor
  · norm_num [isOnLadder, getBlock, Vec3.offset, ctx0, trapWorld,
      trapdoorBlock]
  · norm_num [simulatePlayer, simFlagsAndDeadZone, simJump, simElytraFirework,
      moveEntityWithHeading, moveEntity, moveEntityWebbed, resolveCollisions,
      moveEntityPost, velAfterClamp, blockEffectsStep, soulsandHoneyScale,
      velocityBlocksOnTopAdjust, isOnLadder, getBlock, applyHeading,
      isInWaterApplyCurrent, getWaterInBB, isMaterialInBB, latticePositions,
      getSurroundingBBs, intRangeIncl, intRangeGo, getPlayerBB,
      setPositionToBB, shapeToAABB, AABB.offset, AABB.extend, AABB.contract,
      AABB.computeOffsetX, AABB.computeOffsetY, AABB.computeOffsetZ,
      Vec3.offset, Vec3.floored, Vec3.add, vecNorm, vecNormalize, getFlow,
      getLiquidHeightPcent, getRenderedDepth, doesNotCollide, clamp,
      createAttributeValue, deleteAttributeModifier, checkAttributeModifier,
      addAttributeModifier, getAttributeValue, getLookingVector, b2q, gravity,
      playerSpeed, sprintSpeed, sneakSpeed, stepHeight, negligeableVelocity,
      soulsandSpeed, honeyblockSpeed, honeyblockJumpSpeed, ladderMaxSpeed,
      ladderClimbSpeed, playerHalfWidth, playerHeight, waterInertia,
      lavaInertia, liquidAcceleration, airborneInertia, airborneAcceleration,
      defaultSlipperiness, outOfLiquidImpulse, autojumpCooldown,
      slowFallingConst, sprintingUUID, jumpVelocityBase, ctx0, trapWorld,
      trapdoorBlock, eTrap, e0, allOff]

/-- The C10 witness entity: the S1 entity with `jumpTicks = 5`. -/
def e5 : Entity := { e0 with jumpTicks := 5 }

set_option maxHeartbeats 4000000 in
/-- C10 witness: a concrete tick from `jumpTicks = 5` lands back inside
`[0, 10]` (jump is not held, so the handler resets it to 0). -/
theorem c10_witness :
    (0 : Int) ≤ e5.jumpTicks ∧ e5.jumpTicks ≤ 10 ∧
    ∃ e2, simulatePlayer ctx0 emptyWorld e5 = some e2 ∧
      0 ≤ e2.jumpTicks ∧ e2.jumpTicks ≤ 10 := by
  refine ⟨by norm_num [e5, e0], by norm_num [e5, e0], ?_⟩
  have hsome : (simulatePlayer ctx0 emptyWorld e5).isSome = true := by
    norm_num [simulatePlayer, simFlagsAndDeadZone, simJump, simElytraFirework,
      moveEntityWithHeading, moveEntity, moveEntityWebbed, resolveCollisions,
      moveEntityPost, velAfterClamp, blockEffectsStep, soulsandHoneyScale,
      velocityBlocksOnTopAdjust, isOnLadder, getBlock, applyHeading,
      isInWaterApplyCurrent, getWaterInBB, isMaterialInBB, latticePositions,
      getSurroundingBBs, intRangeIncl, intRangeGo, getPlayerBB,
      setPositionToBB, shapeToAABB, AABB.offset, AABB.extend, AABB.contract,
      AABB.computeOffsetX, AABB.computeOffsetY, AABB.computeOffsetZ,
      Vec3.offset, Vec3.floored, Vec3.add, vecNorm, vecNormalize, getFlow,
      getLiquidHeightPcent, getRenderedDepth, doesNotCollide, clamp,
      createAttributeValue, deleteAttributeModifier, checkAttributeModifier,
      addAttributeModifier, getAttributeValue, getLookingVector, b2q, gravity,
      playerSpeed, sprintSpeed, sneakSpeed, stepHeight, negligeableVelocity,
      soulsandSpeed, honeyblockSpeed, honeyblockJumpSpeed, ladderMaxSpeed,
      ladderClimbSpeed, playerHalfWidth, playerHeight, waterInertia,
      lavaInertia, liquidAcceleration, airborneInertia, airborneAcceleration,
      defaultSlipperiness, outOfLiquidImpulse, autojumpCooldown,
      slowFallingConst, sprintingUUID, jumpVelocityBase, ctx0, emptyWorld,
      e5, e0, allOff, Option.isSome]
  obtain ⟨e2, h2⟩ := Option.isSome_iff_exists.mp hsome
  exact ⟨e2, h2, c10_jumpTicks_invariant ctx0 emptyWorld e5
    (by norm_num [e5, e0]) (by norm_num [e5, e0]) e2 h2⟩

end Prismarine
